import Mathlib

/-!
Verification of the clipboard-to-text / OCR pipeline of Transcribe-Wizard
(`src/main.rs`): the functions `image_to_str` and `clipboard_str` are
embedded shallowly, with the external clipboard and OCR capabilities
modelled as records of (possibly failing) functions, exactly mirroring the
call structure and error wrapping of the Rust source.
-/

namespace TranscribeWizard

/-- Model of `image::DynamicImage` as seen by the pipeline: the pipeline
only ever uses `image.to_rgb8().as_raw()` (the RGB8 byte buffer) and
`image_rgb.dimensions()`, so the image is represented by those. -/
structure DynamicImage where
  rgb_bytes : List UInt8
  dimensions : Nat × Nat

/-- Model of the external `ocrs` OCR capability used by `image_to_str`:
`ImageSource::from_bytes` (fallible construction of the OCR input source
from the RGB8 buffer and dimensions), `OcrEngine::prepare_input`,
`OcrEngine::detect_words`, `OcrEngine::find_text_lines` (infallible) and
`OcrEngine::recognize_text`.  Recognized lines are modelled by the string
their `to_string()` produces; an absent (`None`) entry means recognition
declined to produce text for that line.  `Src`, `Prep`, `Word`, `Line` are
the capability's opaque intermediate types. -/
structure OcrEngine (Src Prep Word Line : Type) where
  from_bytes : List UInt8 → Nat × Nat → Except String Src
  prepare_input : Src → Except String Prep
  detect_words : Prep → Except String (List Word)
  find_text_lines : Prep → List Word → List Line
  recognize_text : Prep → List Line → Except String (List (Option String))

/-- Model of `clipboard_rs` image data: `get_dynamic_image` decodes the
clipboard image bytes into a `DynamicImage`, and may fail. -/
structure ImageData where
  get_dynamic_image : Except String DynamicImage

/-- Model of `clipboard_rs::ClipboardContext` at one resolution instant:
`has(ContentFormat::Text)`, `has(ContentFormat::Image)`, `get_text()` and
`get_image()`.  Retrieval may fail independently of the presence checks. -/
structure ClipboardContext where
  hasText : Bool
  hasImage : Bool
  get_text : Except String String
  get_image : Except String ImageData

/-- The assembly step of `image_to_str` (src/main.rs lines 28-34):
`line_texts.into_iter().flatten().filter(|line| line.to_string().len() > 1)
.map(|line| line.to_string()).collect::<Vec<String>>().join(" ")`.
Rust `String::len` is the UTF-8 byte length, hence `String.utf8ByteSize`. -/
def assemble (line_texts : List (Option String)) : String :=
  String.intercalate " "
    ((line_texts.filterMap id).filter fun line => line.utf8ByteSize > 1)

/-- The recognized lines that survive the assembly filter, in order. -/
def survivors (line_texts : List (Option String)) : List String :=
  (line_texts.filterMap id).filter fun line => line.utf8ByteSize > 1

/-- Embedding of `image_to_str` (src/main.rs lines 20-35).  Each `?` of the
Rust source is an explicit match that propagates the error unchanged. -/
def image_to_str (engine : OcrEngine Src Prep Word Line)
    (image : DynamicImage) : Except String String :=
  match engine.from_bytes image.rgb_bytes image.dimensions with
  | .error e => .error e
  | .ok image_source =>
  match engine.prepare_input image_source with
  | .error e => .error e
  | .ok ocr_input =>
  match engine.detect_words ocr_input with
  | .error e => .error e
  | .ok word_rects =>
  let line_rects := engine.find_text_lines ocr_input word_rects
  match engine.recognize_text ocr_input line_rects with
  | .error e => .error e
  | .ok line_texts => .ok (assemble line_texts)

/-- Embedding of `clipboard_str` (src/main.rs lines 38-68).  The Rust
`format!` wrappers are modelled by string concatenation of the literal
prefix (up to and including `": "`) with the underlying error message. -/
def clipboard_str (engine : OcrEngine Src Prep Word Line)
    (clipboard_context : ClipboardContext) : Except String String :=
  if clipboard_context.hasText then
    match clipboard_context.get_text with
    | .ok text => .ok text
    | .error err => .error ("Failed to get text from clipboard: " ++ err)
  else if clipboard_context.hasImage then
    match clipboard_context.get_image with
    | .error err => .error ("Failed to get image from clipboard: " ++ err)
    | .ok image_data =>
      match image_data.get_dynamic_image with
      | .error err =>
          .error ("Failed to convert image data to dynamic image: " ++ err)
      | .ok image =>
        match image_to_str engine image with
        | .ok text => .ok text
        | .error err => .error ("Failed to extract text from image: " ++ err)
  else
    .error "Unhandled clipboard content: neither text nor image"

/-- `assemble` joins exactly the surviving lines. -/
theorem assemble_eq_survivors (ts : List (Option String)) :
    assemble ts = String.intercalate " " (survivors ts) := rfl

/-- Every error message built by `clipboard_str` starts with `Failed`, so it
can never coincide with the fixed no-usable-content message, whatever the
wrapped cause is. -/
theorem failed_ne_unhandled (p e : String) (hp : p.data.head? = some 'F') :
    p ++ e ≠ "Unhandled clipboard content: neither text nor image" := by
  intro h
  cases p with | mk pd =>
  cases e with | mk ed =>
  have hd : pd ++ ed =
      ("Unhandled clipboard content: neither text nor image").data :=
    congrArg String.data h
  cases pd with
  | nil => simp at hp
  | cons c cs =>
    have hc : c = 'F' := by simpa using hp
    have hh := congrArg List.head? hd
    rw [hc] at hh
    simp at hh

/-- C1: whenever the clipboard's text-format check succeeds and text
retrieval succeeds, `clipboard_str` returns that text verbatim, and the
result does not depend on the OCR engine at all (so OCR is never invoked),
even when an image format is also present. -/
theorem resolve_text_priority {Src Prep Word Line : Type}
    (engine engine' : OcrEngine Src Prep Word Line) (cb : ClipboardContext)
    (t : String) (hT : cb.hasText = true) (hG : cb.get_text = .ok t) :
    clipboard_str engine cb = .ok t ∧
    clipboard_str engine cb = clipboard_str engine' cb := by
  constructor <;> simp [clipboard_str, hT, hG]

/-- C1 witness: a clipboard holding the text `Copied!` and also an image
resolves to `Copied!`, under two engines that would OCR to different
strings. -/
theorem resolve_text_priority_witness :
    clipboard_str
      (⟨fun _ _ => .ok (), fun _ => .ok (), fun _ => .ok [],
        fun _ _ => [], fun _ _ => .ok [some "image text A"]⟩ :
        OcrEngine Unit Unit Unit Unit)
      ⟨true, true, .ok "Copied!", .ok ⟨.ok ⟨[], (1, 1)⟩⟩⟩ = .ok "Copied!" ∧
    clipboard_str
      (⟨fun _ _ => .ok (), fun _ => .ok (), fun _ => .ok [],
        fun _ _ => [], fun _ _ => .ok [some "image text A"]⟩ :
        OcrEngine Unit Unit Unit Unit)
      ⟨true, true, .ok "Copied!", .ok ⟨.ok ⟨[], (1, 1)⟩⟩⟩ =
    clipboard_str
      (⟨fun _ _ => .ok (), fun _ => .ok (), fun _ => .ok [],
        fun _ _ => [], fun _ _ => .ok [some "image text B"]⟩ :
        OcrEngine Unit Unit Unit Unit)
      ⟨true, true, .ok "Copied!", .ok ⟨.ok ⟨[], (1, 1)⟩⟩⟩ :=
  resolve_text_priority _ _ _ "Copied!" rfl rfl

/-- C4: a clipboard exposing neither the text format nor the image format
makes `clipboard_str` fail with exactly the no-usable-content error. -/
theorem resolve_no_usable_content {Src Prep Word Line : Type}
    (engine : OcrEngine Src Prep Word Line) (cb : ClipboardContext)
    (hT : cb.hasText = false) (hI : cb.hasImage = false) :
    clipboard_str engine cb =
      .error "Unhandled clipboard content: neither text nor image" := by
  simp [clipboard_str, hT, hI]

/-- C4 witness: an empty clipboard yields the no-usable-content error. -/
theorem resolve_no_usable_content_witness :
    clipboard_str
      (⟨fun _ _ => .ok (), fun _ => .ok (), fun _ => .ok [],
        fun _ _ => [], fun _ _ => .ok []⟩ : OcrEngine Unit Unit Unit Unit)
      ⟨false, false, .error "empty", .error "empty"⟩ =
      .error "Unhandled clipboard content: neither text nor image" :=
  resolve_no_usable_content _ _ rfl rfl

/-- C2: when the text format is absent, `clipboard_str` checks the image
format; if an image is present it attempts retrieval, decode and OCR
delegation, wrapping each failure with its cause and forwarding OCR
success verbatim; and the no-usable-content error is returned only when
both formats are absent. -/
theorem resolve_image_fallback {Src Prep Word Line : Type}
    (engine : OcrEngine Src Prep Word Line) (cb : ClipboardContext) :
    (cb.hasText = false → cb.hasImage = true →
      ∀ e, cb.get_image = .error e →
        clipboard_str engine cb =
          .error ("Failed to get image from clipboard: " ++ e)) ∧
    (cb.hasText = false → cb.hasImage = true →
      ∀ d e, cb.get_image = .ok d → d.get_dynamic_image = .error e →
        clipboard_str engine cb =
          .error ("Failed to convert image data to dynamic image: " ++ e)) ∧
    (cb.hasText = false → cb.hasImage = true →
      ∀ d img, cb.get_image = .ok d → d.get_dynamic_image = .ok img →
        (∀ t, image_to_str engine img = .ok t →
          clipboard_str engine cb = .ok t) ∧
        (∀ e, image_to_str engine img = .error e →
          clipboard_str engine cb =
            .error ("Failed to extract text from image: " ++ e))) ∧
    (clipboard_str engine cb =
        .error "Unhandled clipboard content: neither text nor image" →
      cb.hasText = false ∧ cb.hasImage = false) := by
  refine ⟨?_, ?_, ?_, ?_⟩
  · intro hT hI e hG
    simp [clipboard_str, hT, hI, hG]
  · intro hT hI d e hG hD
    simp [clipboard_str, hT, hI, hG, hD]
  · intro hT hI d img hG hD
    constructor
    · intro t hO
      simp [clipboard_str, hT, hI, hG, hD, hO]
    · intro e hO
      simp [clipboard_str, hT, hI, hG, hD, hO]
  · intro hU
    cases hT : cb.hasText with
    | true =>
      exfalso
      rw [clipboard_str, hT] at hU
      simp at hU
      cases hg : cb.get_text with
      | ok t => rw [hg] at hU; simp at hU
      | error e =>
        rw [hg] at hU
        simp at hU
        exact failed_ne_unhandled "Failed to get text from clipboard: " e
          (by decide) hU
    | false =>
      cases hI : cb.hasImage with
      | false => exact ⟨rfl, rfl⟩
      | true =>
        exfalso
        rw [clipboard_str, hT, hI] at hU
        simp at hU
        cases hg : cb.get_image with
        | error e =>
          rw [hg] at hU
          simp at hU
          exact failed_ne_unhandled "Failed to get image from clipboard: " e
            (by decide) hU
        | ok d =>
          rw [hg] at hU
          simp at hU
          cases hd : d.get_dynamic_image with
          | error e =>
            rw [hd] at hU
            simp at hU
            exact failed_ne_unhandled
              "Failed to convert image data to dynamic image: " e
              (by decide) hU
          | ok img =>
            rw [hd] at hU
            simp at hU
            cases ho : image_to_str engine img with
            | ok t => rw [ho] at hU; simp at hU
            | error e =>
              rw [ho] at hU
              simp at hU
              exact failed_ne_unhandled
                "Failed to extract text from image: " e (by decide) hU

/-- C2 witness: with no text format and an image that OCRs to
`Hello World`, `clipboard_str` returns `Hello World`. -/
theorem resolve_image_fallback_witness :
    clipboard_str
      (⟨fun _ _ => .ok (), fun _ => .ok (), fun _ => .ok [],
        fun _ _ => [], fun _ _ => .ok [some "Hello", some "World"]⟩ :
        OcrEngine Unit Unit Unit Unit)
      ⟨false, true, .error "no text",
        .ok ⟨.ok ⟨[], (2, 2)⟩⟩⟩ = .ok "Hello World" :=
  ((resolve_image_fallback
      (⟨fun _ _ => .ok (), fun _ => .ok (), fun _ => .ok [],
        fun _ _ => [], fun _ _ => .ok [some "Hello", some "World"]⟩ :
        OcrEngine Unit Unit Unit Unit)
      ⟨false, true, .error "no text",
        .ok ⟨.ok ⟨[], (2, 2)⟩⟩⟩).2.2.1 rfl rfl
    ⟨.ok ⟨[], (2, 2)⟩⟩ ⟨[], (2, 2)⟩ rfl rfl).1 "Hello World" rfl

/-- C5: whenever every pipeline stage succeeds and no recognized line
survives the length filter — in particular when detection yields zero
words — `image_to_str` succeeds with the empty string rather than
failing. -/
theorem extract_no_text_is_empty_success {Src Prep Word Line : Type}
    (engine : OcrEngine Src Prep Word Line) (image : DynamicImage)
    (src : Src) (prep : Prep) (words : List Word)
    (ts : List (Option String))
    (h1 : engine.from_bytes image.rgb_bytes image.dimensions = .ok src)
    (h2 : engine.prepare_input src = .ok prep)
    (h3 : engine.detect_words prep = .ok words)
    (h5 : engine.recognize_text prep
      (engine.find_text_lines prep words) = .ok ts)
    (h6 : survivors ts = []) :
    image_to_str engine image = .ok "" := by
  have ha : assemble ts = "" := by
    rw [assemble_eq_survivors, h6]
    rfl
  simp [image_to_str, h1, h2, h3, h5, ha]

/-- C5 witness: an engine detecting zero words (hence grouping zero lines
and recognizing nothing) extracts the empty string successfully. -/
theorem extract_no_text_is_empty_success_witness :
    image_to_str
      (⟨fun _ _ => .ok (), fun _ => .ok (), fun _ => .ok [],
        fun _ _ => [], fun _ _ => .ok []⟩ : OcrEngine Unit Unit Unit Unit)
      ⟨[], (4, 4)⟩ = .ok "" :=
  extract_no_text_is_empty_success _ ⟨[], (4, 4)⟩ () () [] []
    rfl rfl rfl rfl rfl

/-- C6: a failure of any stage (source construction, prepare, detect,
recognize) makes `image_to_str` fail with that stage's error — so no
partial text is ever returned — and `clipboard_str` surfaces such a
failure as a wrapped extraction error carrying the underlying cause. -/
theorem extract_failure_aborts_and_is_wrapped {Src Prep Word Line : Type}
    (engine : OcrEngine Src Prep Word Line) (cb : ClipboardContext)
    (idata : ImageData) (image : DynamicImage) (e : String)
    (hT : cb.hasText = false) (hI : cb.hasImage = true)
    (hG : cb.get_image = .ok idata)
    (hD : idata.get_dynamic_image = .ok image)
    (hF : image_to_str engine image = .error e) :
    clipboard_str engine cb =
      .error ("Failed to extract text from image: " ++ e) ∧
    (∀ t, clipboard_str engine cb ≠ .ok t) ∧
    (∀ e', engine.from_bytes image.rgb_bytes image.dimensions = .error e' →
      image_to_str engine image = .error e') ∧
    (∀ src e', engine.from_bytes image.rgb_bytes image.dimensions = .ok src →
      engine.prepare_input src = .error e' →
      image_to_str engine image = .error e') ∧
    (∀ src prep e',
      engine.from_bytes image.rgb_bytes image.dimensions = .ok src →
      engine.prepare_input src = .ok prep →
      engine.detect_words prep = .error e' →
      image_to_str engine image = .error e') ∧
    (∀ src prep words e',
      engine.from_bytes image.rgb_bytes image.dimensions = .ok src →
      engine.prepare_input src = .ok prep →
      engine.detect_words prep = .ok words →
      engine.recognize_text prep (engine.find_text_lines prep words) =
        .error e' →
      image_to_str engine image = .error e') := by
  have hw : clipboard_str engine cb =
      .error ("Failed to extract text from image: " ++ e) := by
    simp [clipboard_str, hT, hI, hG, hD, hF]
  refine ⟨hw, ?_, ?_, ?_, ?_, ?_⟩
  · intro t hok
    rw [hw] at hok
    exact Except.noConfusion hok
  · intro e' h1
    simp [image_to_str, h1]
  · intro src e' h1 h2
    simp [image_to_str, h1, h2]
  · intro src prep e' h1 h2 h3
    simp [image_to_str, h1, h2, h3]
  · intro src prep words e' h1 h2 h3 h5
    simp [image_to_str, h1, h2, h3, h5]

/-- C6 witness: a recognition-stage failure `boom` surfaces through
`clipboard_str` as a wrapped extraction error carrying `boom`. -/
theorem extract_failure_aborts_and_is_wrapped_witness :
    clipboard_str
      (⟨fun _ _ => .ok (), fun _ => .ok (), fun _ => .ok [],
        fun _ _ => [], fun _ _ => .error "boom"⟩ :
        OcrEngine Unit Unit Unit Unit)
      ⟨false, true, .error "no text", .ok ⟨.ok ⟨[], (3, 3)⟩⟩⟩ =
      .error ("Failed to extract text from image: " ++ "boom") :=
  (extract_failure_aborts_and_is_wrapped
    (⟨fun _ _ => .ok (), fun _ => .ok (), fun _ => .ok [],
      fun _ _ => [], fun _ _ => .error "boom"⟩ :
      OcrEngine Unit Unit Unit Unit)
    ⟨false, true, .error "no text", .ok ⟨.ok ⟨[], (3, 3)⟩⟩⟩
    ⟨.ok ⟨[], (3, 3)⟩⟩ ⟨[], (3, 3)⟩ "boom" rfl rfl rfl rfl rfl).1

/-- C3 counterexample: the line `é` has character length 1, yet assembly
keeps it (its UTF-8 byte length is 2), so the output is not restricted to
lines whose text length exceeds one character. -/
theorem assemble_keeps_one_char_line :
    assemble [some "é"] = "é" ∧ ("é" : String).length = 1 := by decide

/-- C3 (amended to UTF-8 byte length): when every stage succeeds,
`image_to_str` returns the space-join, in line-grouping order, of exactly
those recognized lines whose UTF-8 byte length exceeds 1; in particular
lines `Hello` and `a` assemble to `Hello`. -/
theorem extract_assembles_filtered_join {Src Prep Word Line : Type}
    (engine : OcrEngine Src Prep Word Line) (image : DynamicImage)
    (src : Src) (prep : Prep) (words : List Word)
    (ts : List (Option String))
    (h1 : engine.from_bytes image.rgb_bytes image.dimensions = .ok src)
    (h2 : engine.prepare_input src = .ok prep)
    (h3 : engine.detect_words prep = .ok words)
    (h5 : engine.recognize_text prep
      (engine.find_text_lines prep words) = .ok ts) :
    image_to_str engine image =
      .ok (String.intercalate " " (survivors ts)) ∧
    (∀ s ∈ survivors ts, 1 < s.utf8ByteSize) ∧
    (survivors ts).Sublist (ts.filterMap id) ∧
    assemble [some "Hello", some "a"] = "Hello" := by
  refine ⟨?_, ?_, ?_, by decide⟩
  · simp [image_to_str, h1, h2, h3, h5, assemble_eq_survivors]
  · intro s hs
    have := List.of_mem_filter hs
    simpa using this
  · exact List.filter_sublist _

/-- C3 witness: an engine recognizing `Hello` and `a` extracts `Hello`. -/
theorem extract_assembles_filtered_join_witness :
    image_to_str
      (⟨fun _ _ => .ok (), fun _ => .ok (), fun _ => .ok [],
        fun _ _ => [], fun _ _ => .ok [some "Hello", some "a"]⟩ :
        OcrEngine Unit Unit Unit Unit)
      ⟨[], (5, 5)⟩ = .ok "Hello" :=
  ((extract_assembles_filtered_join
      (⟨fun _ _ => .ok (), fun _ => .ok (), fun _ => .ok [],
        fun _ _ => [], fun _ _ => .ok [some "Hello", some "a"]⟩ :
        OcrEngine Unit Unit Unit Unit)
      ⟨[], (5, 5)⟩ () () [] [some "Hello", some "a"]
      rfl rfl rfl rfl).1).trans (congrArg Except.ok (by decide))

/-- C7: an absent (`None`) recognition entry is silently skipped: with all
stages succeeding, the extracted text equals the assembly of the same
sequence with the `None` entry removed — so it contributes nothing, causes
no failure, and the present entries keep their relative order. -/
theorem absent_entries_silently_skipped {Src Prep Word Line : Type}
    (engine : OcrEngine Src Prep Word Line) (image : DynamicImage)
    (src : Src) (prep : Prep) (words : List Word)
    (l r : List (Option String))
    (h1 : engine.from_bytes image.rgb_bytes image.dimensions = .ok src)
    (h2 : engine.prepare_input src = .ok prep)
    (h3 : engine.detect_words prep = .ok words)
    (h5 : engine.recognize_text prep
      (engine.find_text_lines prep words) = .ok (l ++ none :: r)) :
    image_to_str engine image = .ok (assemble (l ++ r)) ∧
    survivors (l ++ none :: r) = survivors (l ++ r) := by
  have hs : survivors (l ++ none :: r) = survivors (l ++ r) := by
    simp [survivors, List.filterMap_append]
  have ha : assemble (l ++ none :: r) = assemble (l ++ r) := by
    rw [assemble_eq_survivors, hs, assemble_eq_survivors]
  refine ⟨?_, hs⟩
  simp [image_to_str, h1, h2, h3, h5, ha]

/-- C7 witness: a `None` between `Hello` and `World` is skipped and the
extraction succeeds with `Hello World`. -/
theorem absent_entries_silently_skipped_witness :
    image_to_str
      (⟨fun _ _ => .ok (), fun _ => .ok (), fun _ => .ok [],
        fun _ _ => [],
        fun _ _ => .ok [some "Hello", none, some "World"]⟩ :
        OcrEngine Unit Unit Unit Unit)
      ⟨[], (6, 6)⟩ = .ok (assemble [some "Hello", some "World"]) :=
  (absent_entries_silently_skipped
    (⟨fun _ _ => .ok (), fun _ => .ok (), fun _ => .ok [],
      fun _ _ => [],
      fun _ _ => .ok [some "Hello", none, some "World"]⟩ :
      OcrEngine Unit Unit Unit Unit)
    ⟨[], (6, 6)⟩ () () [] [some "Hello"] [some "World"]
    rfl rfl rfl rfl).1

/-- C8: assembly is order-preserving: the assembled output is the join of
the surviving lines, the survivors are an order-preserving sublist of the
present recognized lines, and permuting the recognized-line sequence
permutes the survivors correspondingly. -/
theorem assemble_order_preserving (ts ts' : List (Option String))
    (h : ts.Perm ts') :
    assemble ts = String.intercalate " " (survivors ts) ∧
    (survivors ts).Sublist (ts.filterMap id) ∧
    (survivors ts).Perm (survivors ts') := by
  refine ⟨assemble_eq_survivors ts, List.filter_sublist _, ?_⟩
  exact (h.filterMap id).filter _

/-- C8 witness: swapping `Hello` and `World` permutes the survivors. -/
theorem assemble_order_preserving_witness :
    assemble [some "Hello", some "World"] =
      String.intercalate " " (survivors [some "Hello", some "World"]) ∧
    (survivors [some "Hello", some "World"]).Sublist
      (([some "Hello", some "World"] :
        List (Option String)).filterMap id) ∧
    (survivors [some "Hello", some "World"]).Perm
      (survivors [some "World", some "Hello"]) :=
  assemble_order_preserving _ _
    (List.Perm.swap (some "World") (some "Hello") [])

/-- C9: assembly is idempotent: re-running the assembly step on the
already-filtered sequence of surviving lines yields the same string as
assembling the original sequence. -/
theorem assemble_idempotent (ts : List (Option String)) :
    assemble ((survivors ts).map some) = assemble ts := by
  simp [assemble, survivors, List.filterMap_map, Function.comp,
    List.filter_filter]

/-- C10: the assembly filter compares UTF-8 byte length, not character
count: any line that is a single one-byte (ASCII) character is discarded,
while the single-character line `é` (two UTF-8 bytes) is retained. -/
theorem assemble_filter_uses_byte_length (c : Char) (h : c.utf8Size = 1) :
    assemble [some (String.singleton c)] = "" ∧
    assemble [some "é"] = "é" ∧
    ("é" : String).length = 1 ∧ ("é" : String).utf8ByteSize = 2 := by
  have hb : (String.singleton c).utf8ByteSize = 1 := by
    simp [String.singleton, String.utf8ByteSize, String.utf8ByteSize.go, h]
  refine ⟨?_, by decide, by decide, by decide⟩
  simp [assemble, hb]
  rfl

/-- C10 witness: the ASCII line `a` is discarded while `é` survives. -/
theorem assemble_filter_uses_byte_length_witness :
    assemble [some (String.singleton 'a')] = "" ∧
    assemble [some "é"] = "é" ∧
    ("é" : String).length = 1 ∧ ("é" : String).utf8ByteSize = 2 :=
  assemble_filter_uses_byte_length 'a' (by decide)

end TranscribeWizard
